import Mathlib

/-! # Verification of the Employee_app generation and export pipeline

Shallow embedding of the core of the `Rorando111/Employee_app` repository:

* `src/utils/constants.py` — fixed configuration constants;
* `src/models/employee.py` — the `Employee` dataclass;
* `src/services/data_gen.py` — `EmployeeDataGenerator` (random employee
  generation, with the random/Faker sources modelled as oracles);
* `src/services/excel_export.py` — `ExcelExporter` (conversion of the
  record list into the two sheets and the write to the filesystem,
  modelled with an explicit filesystem state).

Modelling conventions:

* Calendar dates are integer day numbers (days since 1970-01-01), so
  `date(2020, 1, 1)` is day `18262` and `timedelta` addition is integer
  addition.
* Python floats carrying salary values are modelled as exact rationals
  (`ℚ`); `round(x, 2)` is modelled by `round2`, rounding to an integer
  number of hundredths (the tie-breaking rule of binary floats is
  abstracted; no claim here depends on it).
* The random source (`random.randint`, `random.uniform`, `random.choice`)
  and the Faker name source are modelled as an oracle `RandomDraws`
  supplied per record; the range guarantees of the library calls
  (`uniform` returns a value inside the requested interval, `randint`
  returns a value inside the requested inclusive integer interval) become
  hypotheses on the oracle.
* `END_DATE = date.today()` in `constants.py` is evaluated once, when the
  module is imported; the model therefore carries the day number
  `importToday` at which the constant was captured, distinct from the day
  `callToday` at which a generation call happens.
* The pandas `ExcelWriter` used by `export_to_excel` opens a file handle
  at the destination path when it is constructed (so a missing directory
  makes construction fail before any file exists), and its context
  manager closes — and saves — the workbook on every exit path, including
  an exception raised while writing the sheets; a mid-write failure hence
  leaves a file at the destination.  This is modelled by an explicit
  `FileSystem` state and a `writeFails` failure-injection flag.
-/

namespace EmployeeApp

/-! ## Constants (`src/utils/constants.py`) -/

/-- Constant `DEPARTMENTS`: the fixed 5-element department list. -/
def DEPARTMENTS : List String := ["IT", "HR", "Operations", "Administration", "Finance"]

/-- Constant `MIN_SALARY = 25000.0`. -/
def MIN_SALARY : ℚ := 25000

/-- Constant `MAX_SALARY = 120000.0`. -/
def MAX_SALARY : ℚ := 120000

/-- Constant `START_DATE = date(2020, 1, 1)`, as a day number (days since
1970-01-01). -/
def START_DATE : ℤ := 18262

/-- Constant `EXCEL_FILENAME = "employees.xlsx"`. -/
def EXCEL_FILENAME : String := "employees.xlsx"

/-- Constant `EMPLOYEES_SHEET_NAME = "Employees"`. -/
def EMPLOYEES_SHEET_NAME : String := "Employees"

/-- Constant `SUMMARY_SHEET_NAME = "Summary"`. -/
def SUMMARY_SHEET_NAME : String := "Summary"

/-! ## Data model (`src/models/employee.py`) -/

/-- The `Employee` dataclass: `emp_id, full_name, department, salary,
hire_date`. -/
structure Employee where
  emp_id : ℤ
  full_name : String
  department : String
  salary : ℚ
  hire_date : ℤ
deriving DecidableEq, Repr

/-! ## Rounding

`round(x, 2)` on a salary value: scale by 100, round to an integer,
scale back. -/

/-- Model of Python `round(x, 2)`: round the number of hundredths to an
integer and divide back. -/
def round2 (q : ℚ) : ℚ := ((round (q * 100) : ℤ) : ℚ) / 100

/-! ## Generator (`src/services/data_gen.py`)

`EmployeeDataGenerator` draws each field from the random/Faker sources.
One `RandomDraws` value packages the outcome of the library calls made
for a single record. -/

/-- The outcome of the random/Faker library calls made while generating
one employee: the Faker name, the index picked by
`random.choice(DEPARTMENTS)`, the value returned by
`random.uniform(MIN_SALARY, MAX_SALARY)` and the value returned by
`random.randint(0, days_between)`. -/
structure RandomDraws where
  fakeName : String
  deptIndex : ℕ
  salaryDraw : ℚ
  dateDraw : ℕ
deriving DecidableEq, Repr

/-- The quantity `(END_DATE - START_DATE).days` in `generate_random_date`, where
`END_DATE` was captured as `date.today()` at module import
(`importToday`). -/
def days_between (importToday : ℤ) : ℤ := importToday - START_DATE

/-- Model of `generate_random_date`: `START_DATE + timedelta(days=random_days)`
where `random_days = random.randint(0, days_between)` is supplied by the
oracle. -/
def generate_random_date (random_days : ℕ) : ℤ := START_DATE + (random_days : ℤ)

/-- Errors of the generator.  Modelled from the spec: the spec names the
error kind `InvalidArgument` for a bad count; the code raises no
exception of its own, so this type records which failures are even
possible. -/
inductive GenError
  | invalidArgument
deriving DecidableEq, Repr

/-- Model of `generate_employee(emp_id)`: build one `Employee` from the oracle
draws.  `random.choice(DEPARTMENTS)` is the element at the drawn index;
`salary = round(random.uniform(MIN_SALARY, MAX_SALARY), 2)`;
`hire_date = generate_random_date()`. -/
def generate_employee (d : RandomDraws) (emp_id : ℤ) : Employee :=
  { emp_id := emp_id
    full_name := d.fakeName
    department := DEPARTMENTS.getD (d.deptIndex % DEPARTMENTS.length) ""
    salary := round2 d.salaryDraw
    hire_date := generate_random_date d.dateDraw }

/-- Model of `generate_employees(count)`:
`[self.generate_employee(i + 1) for i in range(count)]`.  For
`count ≤ 0`, the Python `range(count)` is empty, so the comprehension
yields `[]`; the function performs no validation of `count` and raises
nothing itself, hence the result is always `Except.ok`. -/
def generate_employees (draws : ℕ → RandomDraws) (count : ℤ) :
    Except GenError (List Employee) :=
  Except.ok ((List.range count.toNat).map (fun i => generate_employee (draws i) ((i : ℤ) + 1)))

/-- Concrete oracle outcome used to instantiate hypotheses on small
inputs. -/
def dDemo : RandomDraws :=
  { fakeName := "John Doe", deptIndex := 0, salaryDraw := 50000, dateDraw := 0 }

/-- A concrete employee record built from `dDemo`. -/
def empDemo : Employee := generate_employee dDemo 1

/-! ## Exporter (`src/services/excel_export.py`)

The sheets that pandas `to_excel` writes are modelled as lists of rows
of cells; the write itself is modelled over an explicit filesystem
state. -/

/-- A spreadsheet cell: a string, an integer, a (rational) number, a
date, or an empty cell (pandas `None`). -/
inductive Cell
  | str (s : String)
  | intC (n : ℤ)
  | num (q : ℚ)
  | date (d : ℤ)
  | empty
deriving DecidableEq, Repr

/-- The column order imposed by `_employees_to_dataframe`:
`df = df[["emp_id", "full_name", "department", "salary", "hire_date"]]`,
with the column names coming from the keys of `Employee.to_dict`. -/
def employee_columns : List String :=
  ["emp_id", "full_name", "department", "salary", "hire_date"]

/-- One data row of the Employees sheet: the five fields of
`Employee.to_dict`, in the order imposed by `_employees_to_dataframe`. -/
def employee_row (e : Employee) : List Cell :=
  [Cell.intC e.emp_id, Cell.str e.full_name, Cell.str e.department,
   Cell.num e.salary, Cell.date e.hire_date]

/-- The Employees sheet as written by
`employees_df.to_excel(writer, sheet_name=EMPLOYEES_SHEET_NAME, index=False)`:
the header row (the column names of the DataFrame) followed by one row per
record. -/
def employees_sheet (employees : List Employee) : List (List Cell) :=
  (employee_columns.map Cell.str) :: employees.map employee_row

/-- The salaries of the records of department `d`, in input order
(pandas `groupby("department")["salary"]` restricted to the group
`d`). -/
def dept_salaries (employees : List Employee) (d : String) : List ℚ :=
  (employees.filter (fun e => e.department = d)).map Employee.salary

/-- One row of the summary DataFrame:
`department, avg_salary, employee_count`. -/
structure SummaryRow where
  department : String
  avg_salary : Cell
  employee_count : Cell
deriving DecidableEq, Repr

/-- The aggregated row of department `d` produced by
`df.groupby("department")["salary"].agg(["mean", "count"]).round(2)`:
the mean salary of the group rounded to 2 decimals, and the group
size (`round(2)` leaves the integer count unchanged). -/
def summary_group_row (employees : List Employee) (d : String) : SummaryRow :=
  { department := d
    avg_salary := Cell.num (round2 ((dept_salaries employees d).sum /
                    ((dept_salaries employees d).length : ℚ)))
    employee_count := Cell.intC ((dept_salaries employees d).length : ℤ) }

/-- The distinct departments of the input in ascending order: pandas
`groupby` (with its default `sort=True`) aggregates one row per distinct
key and sorts the keys; the subsequent `sort_values("department")` is
stable and leaves this order unchanged. -/
def sorted_departments (employees : List Employee) : List String :=
  List.insertionSort (fun a b => a ≤ b) ((employees.map Employee.department).dedup)

/-- The synthetic final row of the summary: the export timestamp string
(`datetime.now().strftime("%Y-%m-%d %H:%M:%S")`, passed in here as the
`timestamp` argument) placed in the `employee_count` column, with an
empty `avg_salary`. -/
def timestamp_row (timestamp : String) : SummaryRow :=
  { department := "Export Timestamp", avg_salary := Cell.empty,
    employee_count := Cell.str timestamp }

/-- Model of `_create_summary_data`: the per-department aggregated rows in
ascending department order, followed by the timestamp row
(`pd.concat([summary, timestamp_row])`). -/
def create_summary_data (employees : List Employee) (timestamp : String) :
    List SummaryRow :=
  (sorted_departments employees).map (summary_group_row employees) ++
    [timestamp_row timestamp]

/-- The column names of the summary DataFrame after the
rename of the `mean` and `count` columns to `avg_salary` and `employee_count`, and the
`reset_index()`. -/
def summary_columns : List String := ["department", "avg_salary", "employee_count"]

/-- The Summary sheet as written by
`summary_df.to_excel(writer, sheet_name=SUMMARY_SHEET_NAME, index=False)`. -/
def summary_sheet (employees : List Employee) (timestamp : String) :
    List (List Cell) :=
  (summary_columns.map Cell.str) ::
    (create_summary_data employees timestamp).map
      (fun r => [Cell.str r.department, r.avg_salary, r.employee_count])

/-- Errors of the exporter, following the error kinds of the spec:
`EmptyInput` is the `ValueError("No employee data to export")` raised on
an empty record list, `IOFailure` is any `OSError` of the underlying
open/write. -/
inductive ExportError
  | emptyInput
  | ioFailure
deriving DecidableEq, Repr

/-- Content of a file at a path: either the completely saved two-sheet
workbook, or the partial content left behind when the writer was opened
at the path but the write did not complete. -/
inductive FileContent
  | workbook (emps summary : List (List Cell))
  | incomplete
deriving DecidableEq, Repr

/-- The filesystem state visible to the exporter: the set of existing
directories and the files present (path and content).  New files are
consed onto `files`. -/
structure FileSystem where
  dirs : List String
  files : List (String × FileContent)
deriving DecidableEq, Repr

/-- The path `os.path.join(folder_path, EXCEL_FILENAME)`. -/
def filePath (folder : String) : String := folder ++ "/" ++ EXCEL_FILENAME

/-- Model of `export_to_excel(employees, folder_path)` over an explicit
filesystem state, returning the result and the new state.

Faithful to the order of events in the source:
1. `if not employees: raise ValueError(...)` — empty input fails before
   anything touches the filesystem;
2. `file_path = os.path.join(folder_path, EXCEL_FILENAME)`;
3. the two DataFrames are built (pure, modelled by `employees_sheet` and
   `summary_sheet`);
4. `pd.ExcelWriter(file_path, engine="openpyxl")` opens a handle at
   `file_path`: if the directory does not exist the open raises and no
   file is created; otherwise the file now exists at the destination;
5. the sheet writes inside the `with` block; a failure there
   (`writeFails = true`, standing for disk full, permission change,
   etc.) propagates the exception, and the close run by the context manager
   leaves the partially written file at `file_path`; on success the
   saved workbook is at `file_path` and the path is returned. -/
def export_to_excel (employees : List Employee) (folder timestamp : String)
    (fs : FileSystem) (writeFails : Bool) :
    Except ExportError String × FileSystem :=
  if employees.isEmpty then
    (Except.error ExportError.emptyInput, fs)
  else if folder ∈ fs.dirs then
    let path := filePath folder
    if writeFails then
      (Except.error ExportError.ioFailure,
        { fs with files := (path, FileContent.incomplete) :: fs.files })
    else
      (Except.ok path,
        { fs with files :=
            (path, FileContent.workbook (employees_sheet employees)
                     (summary_sheet employees timestamp)) :: fs.files })
  else
    (Except.error ExportError.ioFailure, fs)

/-- Reading one data row of the Employees sheet back: extract the
`emp_id`, `department` and `salary` cells (columns 0, 2 and 3). -/
def read_back_row (r : List Cell) : Option (ℤ × String × ℚ) :=
  match r with
  | [Cell.intC i, _, Cell.str d, Cell.num s, _] => some (i, d, s)
  | _ => none

/-- A concrete filesystem with one directory `out` and no files. -/
def fsDemo : FileSystem := { dirs := ["out"], files := [] }

/-- A concrete export timestamp string. -/
def tsDemo : String := "2024-06-01 12:00:00"

/-- Extract the integer carried by a cell (`0` for non-integer cells);
used to state facts about the `employee_count` column. -/
def cellInt (c : Cell) : ℤ :=
  match c with
  | Cell.intC n => n
  | _ => 0

/-! ## Helper lemmas -/

lemma round2_mono {a b : ℚ} (h : a ≤ b) : round2 a ≤ round2 b := by
  unfold round2
  have h1 : round (a * 100) ≤ round (b * 100) := by
    rw [round_eq, round_eq]
    exact Int.floor_mono (by linarith)
  have h2 : ((round (a * 100) : ℤ) : ℚ) ≤ ((round (b * 100) : ℤ) : ℚ) := by
    exact_mod_cast h1
  linarith

lemma round2_idem (q : ℚ) : round2 (round2 q) = round2 q := by
  unfold round2
  rw [div_mul_cancel₀ _ (by norm_num : (100 : ℚ) ≠ 0), round_intCast]

lemma round2_min : round2 MIN_SALARY = MIN_SALARY := by
  unfold round2 MIN_SALARY
  norm_num [round_eq]

lemma round2_max : round2 MAX_SALARY = MAX_SALARY := by
  unfold round2 MAX_SALARY
  norm_num [round_eq]

lemma length_filter_eq_count (es : List Employee) (d : String) :
    (es.filter (fun e => e.department = d)).length =
      (es.map Employee.department).count d := by
  induction es with
  | nil => rfl
  | cons e es ih =>
    by_cases h : e.department = d <;>
      simp [List.filter_cons, List.count_cons, h, ih, beq_iff_eq]

lemma sum_count_dedup (l : List String) :
    ((l.dedup).map (fun a => l.count a)).sum = l.length := by
  have h1 : l.dedup.toFinset.sum (fun a => l.count a) =
      ((l.dedup).map (fun a => l.count a)).sum :=
    List.sum_toFinset _ (List.nodup_dedup l)
  have h2 : l.dedup.toFinset = l.toFinset := by
    ext a
    simp [List.mem_toFinset, List.mem_dedup]
  rw [← h1, h2, List.sum_toFinset_count_eq_length]

/-! ## Claims -/

/-- C1 counterexample: `generate_employees(0)` does not fail — it
returns the value `[]`.  The list comprehension runs over the empty
`range(0)` and the function performs no validation of `count`, so no
`InvalidArgument` (or any other) error is raised. -/
theorem generate_employees_zero_returns_value :
    generate_employees (fun _ => dDemo) 0 = Except.ok ([] : List Employee) ∧
    ¬ ∃ err : GenError, generate_employees (fun _ => dDemo) 0 = Except.error err := by
  constructor
  · rfl
  · rintro ⟨err, h⟩
    simp [generate_employees] at h

/-- C1 (amended): for every `count < 1`, `generate_employees` performs
no validation and returns the empty list (the Python `range(count)` is
empty for non-positive `count`); it does not fail with
`InvalidArgument` — the `1..1000` bound is enforced only by the UI
layer. -/
theorem generate_employees_nonpositive (draws : ℕ → RandomDraws) (count : ℤ)
    (h : count < 1) :
    generate_employees draws count = Except.ok ([] : List Employee) := by
  have h0 : count.toNat = 0 := by omega
  simp [generate_employees, h0]

/-- C1 witness: `generate_employees(-3)` returns `ok []`. -/
theorem generate_employees_nonpositive_witness :
    generate_employees (fun _ => dDemo) (-3) = Except.ok ([] : List Employee) :=
  generate_employees_nonpositive (fun _ => dDemo) (-3) (by norm_num)

/-- C2: for every `count ≥ 1`, `generate_employees(count)` returns a
list of exactly `count` employees whose `emp_id` values are
`1, 2, ..., count` in list order (`generate_employee(i + 1)` for
`i in range(count)`). -/
theorem generate_employees_count_and_ids (draws : ℕ → RandomDraws) (count : ℤ)
    (es : List Employee) (h1 : 1 ≤ count)
    (hgen : generate_employees draws count = Except.ok es) :
    es.length = count.toNat ∧
    es.map Employee.emp_id = (List.range count.toNat).map (fun i : ℕ => (i : ℤ) + 1) := by
  simp only [generate_employees, Except.ok.injEq] at hgen
  subst hgen
  constructor
  · simp
  · rw [List.map_map]
    rfl

/-- C2 witness: at `count = 3` the generated batch has length 3 and ids
`[1, 2, 3]`. -/
theorem generate_employees_count_and_ids_witness :
    ((List.range (3 : ℤ).toNat).map
        (fun i => generate_employee ((fun _ => dDemo) i) ((i : ℤ) + 1))).length
        = (3 : ℤ).toNat ∧
    ((List.range (3 : ℤ).toNat).map
        (fun i => generate_employee ((fun _ => dDemo) i) ((i : ℤ) + 1))).map
          Employee.emp_id
        = (List.range (3 : ℤ).toNat).map (fun i : ℕ => (i : ℤ) + 1) :=
  generate_employees_count_and_ids (fun _ => dDemo) 3 _ (by norm_num) rfl

/-- C4 counterexample: the end of the hire-date range is `END_DATE`,
captured once at module import — not the current date of the generation
call.  Concretely, when the module was imported on day
`START_DATE + 10` and the generation call happens on day
`START_DATE + 20`, the day `START_DATE + 15` lies inside the range the
claim asserts (`[2020-01-01, call-day]`), yet no admissible draw of
`random.randint(0, days_between)` can produce it: every generated hire
date is at most `START_DATE + 10`. -/
theorem hire_date_bound_is_import_time :
    START_DATE + 15 ≤ START_DATE + 20 ∧
    START_DATE ≤ START_DATE + 15 ∧
    ¬ ∃ r : ℕ, (r : ℤ) ≤ days_between (START_DATE + 10) ∧
        generate_random_date r = START_DATE + 15 := by
  refine ⟨by norm_num, by norm_num, ?_⟩
  rintro ⟨r, hr, he⟩
  simp only [days_between, generate_random_date, START_DATE] at hr he
  omega

/-- C4 (amended): every hire date in a generated batch lies in the
inclusive range from `START_DATE` (2020-01-01) to `END_DATE`, where
`END_DATE = date.today()` is captured once when `constants.py` is
imported (`importToday`); since the import precedes the call
(`importToday ≤ callToday`), the dates also lie below the call-time
current date, but days after the import day are never generated. -/
theorem hire_date_range_import (importToday callToday : ℤ)
    (draws : ℕ → RandomDraws) (count : ℤ) (es : List Employee)
    (hgen : generate_employees draws count = Except.ok es)
    (hvalid : ∀ i, ((draws i).dateDraw : ℤ) ≤ days_between importToday)
    (hcall : importToday ≤ callToday) :
    ∀ e ∈ es, START_DATE ≤ e.hire_date ∧ e.hire_date ≤ importToday ∧
      e.hire_date ≤ callToday := by
  simp only [generate_employees, Except.ok.injEq] at hgen
  subst hgen
  intro e he
  simp only [List.mem_map, List.mem_range] at he
  obtain ⟨i, _, rfl⟩ := he
  have hv := hvalid i
  simp only [generate_employee, generate_random_date, days_between] at hv ⊢
  refine ⟨by omega, by omega, by omega⟩

/-- C4 witness: the one record of a batch generated with import day
`START_DATE + 10` and call day `START_DATE + 20` has its hire date in
`[START_DATE, START_DATE + 10]` (and hence below the call day). -/
theorem hire_date_range_import_witness :
    START_DATE ≤ empDemo.hire_date ∧ empDemo.hire_date ≤ START_DATE + 10 ∧
      empDemo.hire_date ≤ START_DATE + 20 :=
  hire_date_range_import (START_DATE + 10) (START_DATE + 20)
    (fun _ => dDemo) 1 _ rfl
    (fun _ => by norm_num [dDemo, days_between])
    (by norm_num)
    empDemo (by simp [empDemo, List.range_succ])

/-- C6: exporting an empty record list fails with the `EmptyInput`
error (`ValueError("No employee data to export")`) before anything
touches the filesystem, so the filesystem state is returned
unchanged — no file is created. -/
theorem export_empty_input (folder timestamp : String) (fs : FileSystem)
    (writeFails : Bool) :
    export_to_excel [] folder timestamp fs writeFails =
      (Except.error ExportError.emptyInput, fs) := rfl

/-- C7: every generated salary `round(random.uniform(MIN_SALARY,
MAX_SALARY), 2)` lies in `[25000.0, 120000.0]` and has at most 2
decimal digits (it is a fixed point of rounding to 2 decimals), given
that `random.uniform(a, b)` returns a value in `[a, b]`. -/
theorem generated_salary_bounds (draws : ℕ → RandomDraws) (count : ℤ)
    (es : List Employee)
    (hgen : generate_employees draws count = Except.ok es)
    (hvalid : ∀ i, MIN_SALARY ≤ (draws i).salaryDraw ∧
        (draws i).salaryDraw ≤ MAX_SALARY) :
    ∀ e ∈ es, MIN_SALARY ≤ e.salary ∧ e.salary ≤ MAX_SALARY ∧
      round2 e.salary = e.salary := by
  simp only [generate_employees, Except.ok.injEq] at hgen
  subst hgen
  intro e he
  simp only [List.mem_map, List.mem_range] at he
  obtain ⟨i, _, rfl⟩ := he
  obtain ⟨hlo, hhi⟩ := hvalid i
  simp only [generate_employee]
  refine ⟨?_, ?_, round2_idem _⟩
  · calc MIN_SALARY = round2 MIN_SALARY := round2_min.symm
      _ ≤ round2 (draws i).salaryDraw := round2_mono hlo
  · calc round2 (draws i).salaryDraw ≤ round2 MAX_SALARY := round2_mono hhi
      _ = MAX_SALARY := round2_max

/-- C7 witness: the salary of the one record of a concrete batch (drawn
value `50000`) is in range and is a fixed point of 2-decimal rounding. -/
theorem generated_salary_bounds_witness :
    MIN_SALARY ≤ empDemo.salary ∧ empDemo.salary ≤ MAX_SALARY ∧
      round2 empDemo.salary = empDemo.salary :=
  generated_salary_bounds (fun _ => dDemo) 1 _ rfl
    (fun _ => by norm_num [dDemo, MIN_SALARY, MAX_SALARY])
    empDemo (by simp [empDemo, List.range_succ])

/-- C3 counterexample: the write is not atomic.  With one record, an
existing destination directory `out`, and a failure injected while the
sheets are being written, the export fails with `IOFailure` but a
partial file is left at the destination path `out/employees.xlsx`
(the writer opened the file at the final path directly — there is no
temporary path and rename in `export_to_excel`). -/
theorem export_midwrite_partial_file :
    (export_to_excel [empDemo] "out" tsDemo fsDemo true).1 =
      Except.error ExportError.ioFailure ∧
    (export_to_excel [empDemo] "out" tsDemo fsDemo true).2.files =
      [(filePath "out", FileContent.incomplete)] ∧
    fsDemo.files = [] := by
  refine ⟨?_, ?_, rfl⟩ <;> rfl

/-- C3 (amended): the export is not atomic.  Failures that occur before
the writer is opened — a missing destination directory — leave the
filesystem unchanged (no partial file anywhere); but a failure while
the sheets are being written leaves a partial file at the destination
path, because the workbook file is opened at the final path directly
rather than written to a temporary path and renamed. -/
theorem export_not_atomic (employees : List Employee) (folder timestamp : String)
    (fs : FileSystem) (h : employees ≠ []) :
    (folder ∉ fs.dirs →
      export_to_excel employees folder timestamp fs true =
        (Except.error ExportError.ioFailure, fs) ∧
      export_to_excel employees folder timestamp fs false =
        (Except.error ExportError.ioFailure, fs)) ∧
    (folder ∈ fs.dirs →
      export_to_excel employees folder timestamp fs true =
        (Except.error ExportError.ioFailure,
          { fs with files := (filePath folder, FileContent.incomplete) :: fs.files })) := by
  have hne : employees.isEmpty = false := by
    cases employees with
    | nil => exact absurd rfl h
    | cons a l => rfl
  constructor
  · intro hdir
    constructor <;> simp [export_to_excel, hne, hdir]
  · intro hdir
    simp [export_to_excel, hne, hdir]

/-- C3 witness: concrete instance of the amended statement, with one
record, destination directory `out` and the demo filesystem. -/
theorem export_not_atomic_witness :
    ("out" ∉ fsDemo.dirs →
      export_to_excel [empDemo] "out" tsDemo fsDemo true =
        (Except.error ExportError.ioFailure, fsDemo) ∧
      export_to_excel [empDemo] "out" tsDemo fsDemo false =
        (Except.error ExportError.ioFailure, fsDemo)) ∧
    ("out" ∈ fsDemo.dirs →
      export_to_excel [empDemo] "out" tsDemo fsDemo true =
        (Except.error ExportError.ioFailure,
          { fsDemo with
              files := (filePath "out", FileContent.incomplete) :: fsDemo.files })) :=
  export_not_atomic [empDemo] "out" tsDemo fsDemo (List.cons_ne_nil _ _)

/-- C8 counterexample: the header row of the Employees sheet carries
the DataFrame column names `emp_id, full_name, department, salary,
hire_date` — not the strings `id, name, department, salary, hireDate`
that the claim says the headers match exactly. -/
theorem employees_sheet_header_not_claimed :
    (employees_sheet [empDemo]).head? = some (employee_columns.map Cell.str) ∧
    employee_columns ≠ ["id", "name", "department", "salary", "hireDate"] :=
  ⟨rfl, by decide⟩

/-- C8 (amended): the Employees sheet written by a successful export is
a header row followed by one row per record, each row holding the
id, name, department, salary and hire-date fields of the record in that
fixed order; the header strings are the column names used by the code,
`emp_id, full_name, department, salary, hire_date` (not
`id, name, department, salary, hireDate`). -/
theorem employees_sheet_structure (employees : List Employee)
    (folder timestamp : String) (fs : FileSystem)
    (h : employees ≠ []) (hdir : folder ∈ fs.dirs) :
    (export_to_excel employees folder timestamp fs false).1 =
      Except.ok (filePath folder) ∧
    (export_to_excel employees folder timestamp fs false).2.files =
      (filePath folder,
        FileContent.workbook (employees_sheet employees)
          (summary_sheet employees timestamp)) :: fs.files ∧
    (employees_sheet employees).length = employees.length + 1 ∧
    (employees_sheet employees).head? = some (employee_columns.map Cell.str) ∧
    employee_columns = ["emp_id", "full_name", "department", "salary", "hire_date"] ∧
    (employees_sheet employees).tail = employees.map employee_row ∧
    ∀ e, employee_row e =
      [Cell.intC e.emp_id, Cell.str e.full_name, Cell.str e.department,
       Cell.num e.salary, Cell.date e.hire_date] := by
  have hne : employees.isEmpty = false := by
    cases employees with
    | nil => exact absurd rfl h
    | cons a l => rfl
  refine ⟨?_, ?_, ?_, rfl, rfl, rfl, fun e => rfl⟩
  · simp [export_to_excel, hne, hdir]
  · simp [export_to_excel, hne, hdir]
  · simp [employees_sheet]

/-- C8 witness: concrete instance with one record exported into the
demo filesystem. -/
theorem employees_sheet_structure_witness :
    (export_to_excel [empDemo] "out" tsDemo fsDemo false).1 =
      Except.ok (filePath "out") ∧
    (export_to_excel [empDemo] "out" tsDemo fsDemo false).2.files =
      (filePath "out",
        FileContent.workbook (employees_sheet [empDemo])
          (summary_sheet [empDemo] tsDemo)) :: fsDemo.files ∧
    (employees_sheet [empDemo]).length = ([empDemo] : List Employee).length + 1 ∧
    (employees_sheet [empDemo]).head? = some (employee_columns.map Cell.str) ∧
    employee_columns = ["emp_id", "full_name", "department", "salary", "hire_date"] ∧
    (employees_sheet [empDemo]).tail = ([empDemo] : List Employee).map employee_row ∧
    ∀ e, employee_row e =
      [Cell.intC e.emp_id, Cell.str e.full_name, Cell.str e.department,
       Cell.num e.salary, Cell.date e.hire_date] :=
  employees_sheet_structure [empDemo] "out" tsDemo fsDemo
    (List.cons_ne_nil _ _) (by simp [fsDemo])

/-- C9: round-trip — reading the `emp_id`, `department` and `salary`
cells back out of the data rows of the Employees sheet yields exactly
the values of the input records, in input order. -/
theorem employees_sheet_roundtrip (employees : List Employee)
    (h : employees ≠ []) :
    ((employees_sheet employees).tail).map read_back_row =
      employees.map (fun e => some (e.emp_id, e.department, e.salary)) := by
  simp only [employees_sheet, List.tail_cons, List.map_map]
  rfl

/-- C9 witness: round-trip on the concrete one-record list. -/
theorem employees_sheet_roundtrip_witness :
    ((employees_sheet [empDemo]).tail).map read_back_row =
      ([empDemo] : List Employee).map
        (fun e => some (e.emp_id, e.department, e.salary)) :=
  employees_sheet_roundtrip [empDemo] (List.cons_ne_nil _ _)

/-- C5: the summary produced by `_create_summary_data` consists of one
row per distinct department present in the input (no department is
repeated, and exactly the departments occurring in the input appear),
sorted by department name ascending; each department row carries the
arithmetic mean of the salaries of that department rounded to 2 decimal
places and the number of records of that department; and the final row
is the synthetic `Export Timestamp` row carrying the export-time
timestamp string. -/
theorem create_summary_data_correct (employees : List Employee)
    (timestamp : String) (h : employees ≠ []) :
    ((create_summary_data employees timestamp).dropLast.map
        SummaryRow.department).Nodup ∧
    (∀ d, d ∈ (create_summary_data employees timestamp).dropLast.map
        SummaryRow.department ↔ d ∈ employees.map Employee.department) ∧
    ((create_summary_data employees timestamp).dropLast.map
        SummaryRow.department).Sorted (fun a b => a ≤ b) ∧
    (∀ r ∈ (create_summary_data employees timestamp).dropLast,
        r.avg_salary = Cell.num (round2
          ((dept_salaries employees r.department).sum /
            ((dept_salaries employees r.department).length : ℚ))) ∧
        r.employee_count = Cell.intC
          (((employees.filter
              (fun e => e.department = r.department)).length : ℤ))) ∧
    (create_summary_data employees timestamp).getLast? =
      some (timestamp_row timestamp) := by
  have hdrop : (create_summary_data employees timestamp).dropLast =
      (sorted_departments employees).map (summary_group_row employees) := by
    simp [create_summary_data]
  have hcomp : SummaryRow.department ∘ summary_group_row employees = id := rfl
  have hmapdep : ((sorted_departments employees).map
      (summary_group_row employees)).map SummaryRow.department =
      sorted_departments employees := by
    rw [List.map_map, hcomp, List.map_id]
  refine ⟨?_, ?_, ?_, ?_, ?_⟩
  · rw [hdrop, hmapdep]
    exact ((List.perm_insertionSort (fun a b => a ≤ b)
        ((employees.map Employee.department).dedup)).nodup_iff).mpr
      (List.nodup_dedup _)
  · intro d
    rw [hdrop, hmapdep]
    unfold sorted_departments
    rw [(List.perm_insertionSort (fun a b => a ≤ b)
        ((employees.map Employee.department).dedup)).mem_iff, List.mem_dedup]
  · rw [hdrop, hmapdep]
    exact List.sorted_insertionSort (fun a b => a ≤ b) _
  · intro r hr
    rw [hdrop] at hr
    obtain ⟨d, _, rfl⟩ := List.mem_map.mp hr
    refine ⟨rfl, ?_⟩
    simp [summary_group_row, dept_salaries]
  · simp [create_summary_data]

/-- C5 witness: concrete instance on the one-record list. -/
theorem create_summary_data_correct_witness :
    ((create_summary_data [empDemo] tsDemo).dropLast.map
        SummaryRow.department).Nodup ∧
    (∀ d, d ∈ (create_summary_data [empDemo] tsDemo).dropLast.map
        SummaryRow.department ↔
        d ∈ ([empDemo] : List Employee).map Employee.department) ∧
    ((create_summary_data [empDemo] tsDemo).dropLast.map
        SummaryRow.department).Sorted (fun a b => a ≤ b) ∧
    (∀ r ∈ (create_summary_data [empDemo] tsDemo).dropLast,
        r.avg_salary = Cell.num (round2
          ((dept_salaries [empDemo] r.department).sum /
            ((dept_salaries [empDemo] r.department).length : ℚ))) ∧
        r.employee_count = Cell.intC
          (((([empDemo] : List Employee).filter
              (fun e => e.department = r.department)).length : ℤ))) ∧
    (create_summary_data [empDemo] tsDemo).getLast? =
      some (timestamp_row tsDemo) :=
  create_summary_data_correct [empDemo] tsDemo (List.cons_ne_nil _ _)

/-- C10: the `employee_count` values of the department rows of the
summary sum to the total number of input records — every record is
counted in the row of exactly its own department. -/
theorem summary_counts_sum_to_total (employees : List Employee)
    (timestamp : String) (h : employees ≠ []) :
    ((create_summary_data employees timestamp).dropLast.map
        (fun r => cellInt r.employee_count)).sum = (employees.length : ℤ) := by
  have hdrop : (create_summary_data employees timestamp).dropLast =
      (sorted_departments employees).map (summary_group_row employees) := by
    simp [create_summary_data]
  rw [hdrop, List.map_map]
  have hfun : ((fun r => cellInt r.employee_count) ∘ summary_group_row employees) =
      fun d => (((employees.map Employee.department).count d : ℕ) : ℤ) := by
    funext d
    simp only [Function.comp, summary_group_row, cellInt, dept_salaries,
      List.length_map]
    exact_mod_cast congrArg (Nat.cast : ℕ → ℤ) (length_filter_eq_count employees d)
  rw [hfun]
  have hsplit : (fun d => (((employees.map Employee.department).count d : ℕ) : ℤ)) =
      (fun n : ℕ => (n : ℤ)) ∘ (fun d => (employees.map Employee.department).count d) :=
    rfl
  rw [hsplit, ← List.map_map, ← Nat.cast_list_sum]
  have hnat : ((sorted_departments employees).map
      (fun d => (employees.map Employee.department).count d)).sum =
      employees.length := by
    unfold sorted_departments
    rw [((List.perm_insertionSort (fun a b => a ≤ b)
        ((employees.map Employee.department).dedup)).map
        (fun d => (employees.map Employee.department).count d)).sum_eq]
    rw [sum_count_dedup, List.length_map]
  rw [hnat]

/-- C10 witness: concrete instance on the one-record list, where the
single department row counts the single record. -/
theorem summary_counts_sum_to_total_witness :
    ((create_summary_data [empDemo] tsDemo).dropLast.map
        (fun r => cellInt r.employee_count)).sum =
      (([empDemo] : List Employee).length : ℤ) :=
  summary_counts_sum_to_total [empDemo] tsDemo (List.cons_ne_nil _ _)

end EmployeeApp
